import Mathlib

/-!
Verification of the memex knowledge-base engine against its specification.

The development shallowly embeds the viewer snapshot builder
(src/viewer/build.py), the MCP tool layer (src/server/tools.py), the CLI
(src/server/cli.py) and the GitHub client constants
(src/server/github_client.py).  Python strings are Lean `String`s; the
string operations the code uses (lower-casing, path component extraction,
whitespace stripping) are implemented over `List Char` so that every
definition evaluates by kernel reduction.  Parts of the repository that the
sources call but that are not available (server/kb.py, server/config.py,
server/prompt.py) are modelled from the specification and marked as such in
their doc comments.
-/

namespace Memex

/-- Lexicographic comparison of character lists by code point.  This is the
order Python uses to compare strings, and (for files of one flat directory,
as in build.py's glob of knowledge/) the order in which `sorted` arranges
the document paths. -/
def lexLe : List Char → List Char → Bool
  | [], _ => true
  | _ :: _, [] => false
  | a :: as, b :: bs =>
    if a.toNat < b.toNat then true
    else if b.toNat < a.toNat then false
    else lexLe as bs

/-- Whitespace predicate for Python str.strip with no arguments, restricted
to the ASCII whitespace characters. -/
def pyIsSpace (c : Char) : Bool :=
  c == ' ' || c == '\t' || c == '\n' || c == '\r' ||
  c == Char.ofNat 11 || c == Char.ofNat 12

/-- Models Python str.strip(): drop whitespace from both ends. -/
def pyStrip (s : String) : String :=
  ⟨((s.data.dropWhile pyIsSpace).reverse.dropWhile pyIsSpace).reverse⟩

/-- Does the first character list begin with the second? -/
def beginsWithCL : List Char → List Char → Bool
  | _, [] => true
  | [], _ :: _ => false
  | a :: as, b :: bs => a == b && beginsWithCL as bs

/-- Models Python str.startswith. -/
def strBeginsWith (s p : String) : Bool := beginsWithCL s.data p.data

/-- Models Python str.lower (code points in the ASCII range, which is all
the extension check needs). -/
def lowerStr (s : String) : String := ⟨s.data.map Char.toLower⟩

def splitOnCharAux (sep : Char) : List Char → List Char → List (List Char)
  | [], acc => [acc.reverse]
  | c :: cs, acc =>
    if c == sep then acc.reverse :: splitOnCharAux sep cs []
    else splitOnCharAux sep cs (c :: acc)

/-- Split a character list on a separator character. -/
def splitOnChar (sep : Char) (cs : List Char) : List (List Char) :=
  splitOnCharAux sep cs []

/-- Models pathlib's name property on a POSIX-style path: the final path
component, after pathlib drops empty and single-dot components. -/
def posixName (s : String) : String :=
  ⟨((splitOnChar '/' s.data).filter
      (fun c => !c.isEmpty && c != ['.'])).getLast?.getD []⟩

def rfindDotAux : List Char → Nat → Option Nat → Option Nat
  | [], _, best => best
  | c :: cs, i, best =>
    rfindDotAux cs (i + 1) (if c == '.' then some i else best)

/-- Models pathlib's suffix property: the substring of the name from its
last dot, unless that dot is the first or the last character of the name. -/
def pySuffix (s : String) : String :=
  let cs := s.data
  match rfindDotAux cs 0 none with
  | none => ""
  | some i => if 0 < i ∧ i + 1 < cs.length then ⟨cs.drop i⟩ else ""

/-- Models Python "?".split slicing in tools.py and cli.py: the part of the
source string before its first question mark. -/
def beforeQuestionMark (s : String) : String :=
  ⟨s.data.takeWhile (fun c => c != '?')⟩

/-- Typed directed link from its owning entry to another entry (spec
section 3; field layout used by src/viewer/build.py and src/server).  The
optional description uses the empty string as the Python falsy absent
value. -/
structure Edge where
  path : String
  label : String
  description : String
deriving DecidableEq

/-- External citation attached to an entry; the optional title uses the
empty string for absence. -/
structure Source where
  url : String
  title : String
deriving DecidableEq

/-- One parsed knowledge document (spec section 3).  The parser lives in
server/kb.py; the fields are the ones every read path in src/ consumes.
Optional date `updated` uses the empty string for absence. -/
structure Entry where
  path : String
  slug : String
  title : String
  type : String
  summary : String
  tags : List String
  created : String
  updated : String
  edges : List Edge
  sources : List Source
  body : String
deriving DecidableEq

/-- Backlink record as built by src/viewer/build.py lines 39-45: the dict
appended under the target key, with the origin entry's path and title and
the edge's label and description. -/
structure Backlink where
  path : String
  title : String
  label : String
  description : String
deriving DecidableEq

def mkBacklink (e : Entry) (ed : Edge) : Backlink :=
  ⟨e.path, e.title, ed.label, ed.description⟩

/-- Models the append sequence of build.py lines 38-45: iterate entries in
snapshot order, edges in each entry's stored order, and append one
(target key, record) pair per edge to the defaultdict. -/
def backlinkPairs (entries : List Entry) : List (String × Backlink) :=
  entries.flatMap fun e => e.edges.map fun ed => (ed.path, mkBacklink e ed)

/-- Models backlinks.get(target, []) on the defaultdict built above: a
defaultdict(list) holds, at each key, the records appended under that key
in append order, which is the subsequence of matching pairs. -/
def backlinksGet (entries : List Entry) (target : String) : List Backlink :=
  ((backlinkPairs entries).filter fun p => p.1 == target).map Prod.snd

/-- One element of the viewer's entries_data list (build.py lines 55-73).
The body_html field is omitted: it is produced by the external mistune
renderer and no verified property concerns it. -/
structure EntryJson where
  path : String
  slug : String
  title : String
  type : String
  summary : String
  tags : List String
  created : String
  updated : String
  edges : List Edge
  backlinks : List Backlink
  sources : List Source
deriving DecidableEq

/-- Models the dict appended to entries_data for one entry (build.py lines
55-73): metadata copied field by field, edges and sources re-emitted by a
comprehension over the stored lists, backlinks looked up by the entry's own
path. -/
def entryJson (entries : List Entry) (e : Entry) : EntryJson :=
  { path := e.path
    slug := e.slug
    title := e.title
    type := e.type
    summary := e.summary
    tags := e.tags
    created := e.created
    updated := e.updated
    edges := e.edges.map fun ed =>
      { path := ed.path, label := ed.label, description := ed.description }
    backlinks := backlinksGet entries e.path
    sources := e.sources.map fun s => { url := s.url, title := s.title } }

/-- Node of the viewer graph (build.py lines 75-79). -/
structure GraphNode where
  id : String
  title : String
  type : String
deriving DecidableEq

/-- Edge of the viewer graph (build.py lines 81-86).  The JSON keys "from"
and "to" are spelled fromPath and toPath because from is reserved. -/
structure GraphEdge where
  fromPath : String
  toPath : String
  label : String
deriving DecidableEq

def graphNodesOf (entries : List Entry) : List GraphNode :=
  entries.map fun e => ⟨e.path, e.title, e.type⟩

def graphEdgesOf (entries : List Entry) : List GraphEdge :=
  entries.flatMap fun e => e.edges.map fun ed => ⟨e.path, ed.path, ed.label⟩

/-- The viewer's data.json payload (build.py lines 88-106).  The by_type and
tags statistics are omitted: no claim concerns them. -/
structure ViewerData where
  entries : List EntryJson
  graphNodes : List GraphNode
  graphEdges : List GraphEdge
  statsTotal : Nat
  statsTotalEdges : Nat
deriving DecidableEq

def viewerData (entries : List Entry) : ViewerData :=
  let ed := entries.map (entryJson entries)
  { entries := ed
    graphNodes := graphNodesOf entries
    graphEdges := graphEdgesOf entries
    statsTotal := ed.length
    statsTotalEdges := (graphEdgesOf entries).length }

/-- One source document offered to the batch loader.  Modelled from the
spec: the Entry Parser (server/kb.py, not under src/) turns one document's
raw text into a validated Entry or rejects it with a ParseError, so a
document is abstracted to its identifying path plus that parse outcome. -/
structure Doc where
  path : String
  parsed : Option Entry
deriving DecidableEq

def docLe (a b : Doc) : Bool := lexLe a.path.data b.path.data

/-- Models src/viewer/build.py lines 32-36: documents are visited in sorted
path order and a document whose parse returns a falsy result is skipped. -/
def buildEntries (docs : List Doc) : List Entry :=
  (docs.mergeSort docLe).filterMap Doc.parsed

/- Sample data used by the witness theorems. -/

def edgeAB : Edge :=
  { path := "/knowledge/b.md", label := "relates-to", description := "supports" }

def edgeCMissing : Edge :=
  { path := "/knowledge/missing.md", label := "refines", description := "" }

def entryA : Entry :=
  { path := "/knowledge/a.md", slug := "a", title := "Alpha", type := "concept"
    summary := "first", tags := ["x", "y"], created := "2024-01-01", updated := ""
    edges := [edgeAB], sources := [{ url := "https://ex.org", title := "Ex" }]
    body := "body a" }

def entryB : Entry :=
  { path := "/knowledge/b.md", slug := "b", title := "Beta", type := "note"
    summary := "second", tags := ["y"], created := "2024-01-02", updated := "2024-02-01"
    edges := [], sources := [], body := "body b" }

def entryC : Entry :=
  { path := "/knowledge/c.md", slug := "c", title := "Gamma", type := "insight"
    summary := "third", tags := [], created := "2024-01-03", updated := ""
    edges := [edgeCMissing], sources := [], body := "body c" }

/-- Rendering of one edge line in kb_read (src/server/tools.py lines 83-85)
and cmd_read (src/server/cli.py lines 63-65); the description is appended
only when it is truthy, i.e. nonempty. -/
def edgeLine (ed : Edge) : String :=
  "  [" ++ ed.label ++ "] " ++ ed.path ++
    (if ed.description = "" then "" else " — " ++ ed.description)

/-- Rendering of one source line (tools.py lines 88-90, cli.py lines 68-70). -/
def sourceLine (s : Source) : String :=
  "  " ++ s.url ++ (if s.title = "" then "" else " (" ++ s.title ++ ")")

/-- Rendering of one backlink line (tools.py lines 93-95, cli.py lines 73-75). -/
def backlinkLine (bl : Backlink) : String :=
  "  [" ++ bl.label ++ "] " ++ bl.path ++ " (" ++ bl.title ++ ")" ++
    (if bl.description = "" then "" else " — " ++ bl.description)

/-- Lines assembled by kb_read (tools.py lines 76-100): a fixed header, then
conditional updated, edges, sources and backlinks sections (each present only
when its list is truthy), then the body.  cmd_read (cli.py lines 61-85)
prints exactly the same lines one by one. -/
def kbReadParts (entry : Entry) (backlinks : List Backlink) : List String :=
  (["# " ++ entry.title,
    "type: " ++ entry.type,
    "summary: " ++ entry.summary,
    "tags: " ++ String.intercalate ", " entry.tags,
    "created: " ++ entry.created]
   ++ (if entry.updated = "" then [] else ["updated: " ++ entry.updated]))
  ++ (if entry.edges = [] then [] else "\nedges:" :: entry.edges.map edgeLine)
  ++ ((if entry.sources = [] then [] else "\nsources:" :: entry.sources.map sourceLine)
      ++ (if backlinks = [] then [] else "\nbacklinks:" :: backlinks.map backlinkLine)
      ++ ["\n---\n" ++ entry.body])

/-- Sync settings.  Only the auto_pull flag matters to the claims; cli.py
line 16 overrides it. -/
structure SyncConfig where
  auto_pull : Bool
deriving DecidableEq

/-- GitHub remote coordinates from config.yaml. -/
structure GitHubConfig where
  owner : String
  repo : String
  default_branch : String
deriving DecidableEq

/-- Knowledge directory settings from config.yaml. -/
structure KnowledgeConfig where
  assets_dir : String
deriving DecidableEq

/-- Modelled from the spec: the configuration record loaded by
server/config.py (not under src/), restricted to the fields src/server
reads. -/
structure Config where
  sync : SyncConfig
  github : GitHubConfig
  knowledge : KnowledgeConfig
  memex_git_token : String
  cursor_api_key : String
deriving DecidableEq

/-- Modelled from the spec: the Graph Index of server/kb.py (not under
src/) holds the configuration and the authoritative snapshot of loaded
entries, in snapshot order. -/
structure KnowledgeBase where
  config : Config
  entries : List Entry
deriving DecidableEq

/-- Modelled from the spec: read_entry is lookup by path, returning the
entry or an absent result. -/
def readEntry (kb : KnowledgeBase) (path : String) : Option Entry :=
  kb.entries.find? fun e => e.path == path

/-- Modelled from the spec: get_backlinks materializes the reverse view
with the same construction build.py implements (spec section 4.2 gives one
algorithm for both). -/
def getBacklinks (kb : KnowledgeBase) (path : String) : List Backlink :=
  backlinksGet kb.entries path

/-- Models kb_read (tools.py lines 71-101): the not-found string for a
missing path, otherwise the joined rendered lines. -/
def kbRead (kb : KnowledgeBase) (path : String) : String :=
  match readEntry kb path with
  | none => "Entry not found: " ++ path
  | some entry =>
    String.intercalate "\n" (kbReadParts entry (getBacklinks kb path))

/-- Models cmd_read (cli.py lines 52-85): error carries the stderr message
printed before exiting with status 1; ok carries the printed lines. -/
def cmdRead (kb : KnowledgeBase) (path : String) : Except String String :=
  match readEntry kb path with
  | none => Except.error ("Entry not found: " ++ path)
  | some entry =>
    Except.ok (String.intercalate "\n" (kbReadParts entry (getBacklinks kb path)))

/-- Models the total edge count of cmd_stats (cli.py line 91): the sum of
the edge-list lengths over all entries of the snapshot. -/
def cmdStatsEdges (kb : KnowledgeBase) : Nat :=
  (kb.entries.map fun e => e.edges.length).sum

/-- Modelled from the spec: entry_count is the size of the current
snapshot (spec section 4.4), printed by cmd_stats as the entry total. -/
def entryCount (kb : KnowledgeBase) : Nat :=
  kb.entries.length

def sampleConfig : Config :=
  { sync := ⟨true⟩
    github := ⟨"octo", "memex", "main"⟩
    knowledge := ⟨"knowledge/assets"⟩
    memex_git_token := "tok"
    cursor_api_key := "key" }

def sampleKb : KnowledgeBase := ⟨sampleConfig, [entryA, entryB]⟩

def docA : Doc := ⟨"/knowledge/a.md", some entryA⟩

def docB : Doc := ⟨"/knowledge/b.md", some entryB⟩

def docBad : Doc := ⟨"/knowledge/zbad.md", none⟩

/-- Models _make_kb (cli.py lines 14-17): load the configuration, force
sync.auto_pull off, and construct the knowledge base over whatever local
documents exist at startup. -/
def makeKb (config : Config) (localEntries : List Entry) : KnowledgeBase :=
  ⟨{ config with sync := { config.sync with auto_pull := false } }, localEntries⟩

/-- Modelled from the spec: the sync configuration flag controls automatic
refresh-before-read (spec section 4.4); when it is off the index is never
refreshed automatically. -/
def autoRefreshEnabled (kb : KnowledgeBase) : Bool :=
  kb.config.sync.auto_pull

/-- The accepted image extensions (src/server/github_client.py line 11).
Python stores them in a set; only membership and the sorted listing are
used. -/
def IMAGE_EXTENSIONS : List String :=
  [".png", ".jpg", ".jpeg", ".gif", ".webp", ".svg"]

/-- Filename derivation shared by kb_upload (tools.py lines 121-126) and
cmd_upload (cli.py lines 124-129): URLs keep the part before the first
question mark and take its final POSIX component; local paths take the
final component of the path. -/
def uploadFilename (source : String) : String :=
  if strBeginsWith source "http://" || strBeginsWith source "https://" then
    posixName (beforeQuestionMark source)
  else
    posixName source

/-- Extension derivation (tools.py line 128, cli.py line 131): the suffix of
the derived filename, lower-cased. -/
def uploadExt (source : String) : String :=
  lowerStr (pySuffix (uploadFilename source))

/-- The kb_upload rejection message for an unsupported extension (tools.py
line 130). -/
def unsupportedMsg (ext : String) : String :=
  "Error: Unsupported image type '" ++ ext ++ "'. Supported: " ++
    String.intercalate ", " (IMAGE_EXTENSIONS.mergeSort (fun a b => lexLe a.data b.data))

/-- Externally visible side effects of the upload paths, in order. -/
inductive UploadStep where
  | fetch (url : String)
  | readLocalFile (p : String)
  | ensureBranch (branch : String) (base : String)
  | uploadFile (repoPath : String) (branch : String)
deriving DecidableEq

/-- Outcomes of the external collaborators one upload touches: the HTTP
fetch, the local file check, and the GitHub branch and upload calls.  The
fetched bytes themselves never appear in any verified output, so only
success or the error text is kept. -/
structure UploadEnv where
  fetched : Except String Unit
  fileExists : Bool
  ghEnsure : Except String Unit
  ghUpload : Except String Unit

def uploadSuccessMsg (repoPath branch : String) : String :=
  "Uploaded: /" ++ repoPath ++ "\nBranch: " ++ branch ++
    "\nUse in entries: ![alt](/" ++ repoPath ++ ")"

/-- Models kb_upload (tools.py lines 115-165): configuration checks, the
extension gate, then fetch or local read, optional branch creation, and the
GitHub upload, returning the tool's message together with the side effects
performed. -/
def kbUpload (config : Config) (env : UploadEnv) (source : String)
    (branch : Option String) : String × List UploadStep :=
  if config.memex_git_token = "" then
    ("Error: MEMEX_GIT_TOKEN not configured", [])
  else if config.github.owner = "" ∨ config.github.repo = "" then
    ("Error: GitHub repository not configured in config.yaml", [])
  else if uploadExt source ∉ IMAGE_EXTENSIONS then
    (unsupportedMsg (uploadExt source), [])
  else
    let isUrl := strBeginsWith source "http://" || strBeginsWith source "https://"
    let acquired : Except String Unit × List UploadStep :=
      if isUrl then
        match env.fetched with
        | Except.error e => (Except.error ("Error: Failed to fetch URL: " ++ e), [.fetch source])
        | Except.ok _ => (Except.ok (), [.fetch source])
      else
        if env.fileExists then (Except.ok (), [.readLocalFile source])
        else (Except.error ("Error: File not found: " ++ source), [])
    match acquired with
    | (Except.error msg, steps) => (msg, steps)
    | (Except.ok _, steps) =>
      let targetBranch := branch.getD config.github.default_branch
      let repoPath := config.knowledge.assets_dir ++ "/" ++ uploadFilename source
      match branch with
      | some b =>
        match env.ghEnsure with
        | Except.error e =>
          ("Error: " ++ e, steps ++ [.ensureBranch b config.github.default_branch])
        | Except.ok _ =>
          match env.ghUpload with
          | Except.error e =>
            ("Error: " ++ e,
             steps ++ [.ensureBranch b config.github.default_branch,
                       .uploadFile repoPath targetBranch])
          | Except.ok _ =>
            (uploadSuccessMsg repoPath targetBranch,
             steps ++ [.ensureBranch b config.github.default_branch,
                       .uploadFile repoPath targetBranch])
      | none =>
        match env.ghUpload with
        | Except.error e => ("Error: " ++ e, steps ++ [.uploadFile repoPath targetBranch])
        | Except.ok _ =>
          (uploadSuccessMsg repoPath targetBranch, steps ++ [.uploadFile repoPath targetBranch])

/-- Models the per-source loop of cmd_upload (cli.py lines 123-152): an
unsupported extension prints a skip line and continues; a failed fetch or a
missing local file prints an error and continues; a GitHubClientError from
the upload aborts the remaining sources (the surrounding try ends the
loop).  Returns the printed lines and the side effects in order. -/
def cmdUploadLoop (config : Config) (env : String → UploadEnv) (branch : String) :
    List String → List String × List UploadStep
  | [] => ([], [])
  | source :: rest =>
    let filename := uploadFilename source
    let ext := uploadExt source
    let repoPath := config.knowledge.assets_dir ++ "/" ++ filename
    let isUrl := strBeginsWith source "http://" || strBeginsWith source "https://"
    if ext ∉ IMAGE_EXTENSIONS then
      let r := cmdUploadLoop config env branch rest
      (("Skipping " ++ filename ++ ": unsupported type '" ++ ext ++ "'") :: r.1, r.2)
    else if isUrl then
      match (env source).fetched with
      | Except.error e =>
        let r := cmdUploadLoop config env branch rest
        (("Error fetching " ++ source ++ ": " ++ e) :: r.1, .fetch source :: r.2)
      | Except.ok _ =>
        match (env source).ghUpload with
        | Except.error e =>
          (["Error: " ++ e], [.fetch source, .uploadFile repoPath branch])
        | Except.ok _ =>
          let r := cmdUploadLoop config env branch rest
          (("Uploaded: /" ++ repoPath ++ "  (branch: " ++ branch ++ ")") :: r.1,
           .fetch source :: .uploadFile repoPath branch :: r.2)
    else
      if (env source).fileExists then
        match (env source).ghUpload with
        | Except.error e =>
          (["Error: " ++ e], [.readLocalFile source, .uploadFile repoPath branch])
        | Except.ok _ =>
          let r := cmdUploadLoop config env branch rest
          (("Uploaded: /" ++ repoPath ++ "  (branch: " ++ branch ++ ")") :: r.1,
           .readLocalFile source :: .uploadFile repoPath branch :: r.2)
      else
        let r := cmdUploadLoop config env branch rest
        (("File not found: " ++ source) :: r.1, r.2)

/-- Outcomes of the external collaborators kb_add touches: the assets
directory listing and the cloud agent launch (agent id and dashboard URL on
success, the CursorClientError text on failure). -/
structure AddEnv where
  listAssets : Except String (List String)
  launch : Except String (String × String)

/-- Models kb_add (tools.py lines 174-222): validation, the optional assets
listing (a GitHubClientError is swallowed and leaves the image list empty),
prompt construction from the stripped summary, and the agent launch.  The
build_prompt function (server/prompt.py, not under src/) is a parameter;
the second component records the prompt passed to launch_agent, none when
no launch call was made. -/
def kbAdd (buildPromptFn : String → KnowledgeBase → List String → String)
    (kb : KnowledgeBase) (config : Config) (env : AddEnv) (summary : String)
    (branch : Option String) : String × Option String :=
  if summary = "" ∨ pyStrip summary = "" then
    ("Error: Summary cannot be empty", none)
  else if config.cursor_api_key = "" then
    ("Error: CURSOR_API_KEY not configured", none)
  else if config.github.owner = "" ∨ config.github.repo = "" then
    ("Error: GitHub repository not configured in config.yaml", none)
  else
    let targetBranch := branch.getD config.github.default_branch
    let images : List String :=
      if targetBranch ≠ "" ∧ config.memex_git_token ≠ "" then
        match env.listAssets with
        | Except.ok l => l
        | Except.error _ => []
      else []
    let prompt := buildPromptFn (pyStrip summary) kb images
    match env.launch with
    | Except.error e => ("Error: " ++ e, some prompt)
    | Except.ok (agentId, agentUrl) =>
      ("Cloud agent launched.\nAgent ID: " ++ agentId ++ "\nDashboard: " ++ agentUrl ++
        "\nUse kb_status with this agent_id to check progress.", some prompt)

def sampleUploadEnv : UploadEnv :=
  { fetched := Except.ok (), fileExists := true
    ghEnsure := Except.ok (), ghUpload := Except.ok () }

def sampleAddEnv : AddEnv :=
  { listAssets := Except.ok ["knowledge/assets/i.png"]
    launch := Except.ok ("agent-1", "https://cursor.com/agents/agent-1") }

def samplePromptFn : String → KnowledgeBase → List String → String :=
  fun s _ imgs => s ++ "|" ++ String.intercalate "," imgs

theorem backlinksGet_eq_flatMap (entries : List Entry) (t : String) :
    backlinksGet entries t =
      entries.flatMap fun e =>
        (e.edges.filter fun ed => ed.path == t).map (mkBacklink e) := by
  induction entries with
  | nil => rfl
  | cons e rest ih =>
    have h1 :
        (((e.edges.map fun ed => (ed.path, mkBacklink e ed)).filter
            fun p => p.1 == t).map Prod.snd)
          = (e.edges.filter fun ed => ed.path == t).map (mkBacklink e) := by
      rw [List.filter_map, List.map_map]
      rfl
    simp only [backlinksGet, backlinkPairs, List.flatMap_cons, List.filter_append,
      List.map_append] at *
    rw [h1, ih]

/-- C1: in the viewer snapshot, the backlinks attached to a loaded entry B
are exactly one record per edge of any loaded entry E whose target path
equals B's path, each carrying the edge's label and description together
with E's path and title, in encounter order: entries in snapshot order,
then edges in stored order. -/
theorem c1_backlinks_exact (entries : List Entry) (B : Entry)
    (_hB : B ∈ entries) :
    (entryJson entries B).backlinks =
      entries.flatMap fun E =>
        (E.edges.filter fun ed => ed.path == B.path).map fun ed =>
          { path := E.path, title := E.title, label := ed.label
            description := ed.description } := by
  show backlinksGet entries B.path = _
  exact backlinksGet_eq_flatMap entries B.path

theorem c1_backlinks_exact_witness :
    (entryJson [entryA, entryB] entryB).backlinks =
      [entryA, entryB].flatMap fun E =>
        (E.edges.filter fun ed => ed.path == entryB.path).map fun ed =>
          { path := E.path, title := E.title, label := ed.label
            description := ed.description } :=
  c1_backlinks_exact [entryA, entryB] entryB (by decide)

/-- C2: a dangling edge is still present, unchanged, in its source entry's
serialized edges list; no (target, record) pair derived from it survives the
filter that attaches backlinks to any loaded entry; and the build still
emits one serialized record per loaded entry, so the dangling reference
never loses an entry. -/
theorem c2_dangling_edge (entries : List Entry) (E : Entry) (ed : Edge)
    (_hE : E ∈ entries) (hed : ed ∈ E.edges)
    (hdangling : ∀ B ∈ entries, B.path ≠ ed.path) :
    ed ∈ (entryJson entries E).edges ∧
    (∀ B ∈ entries,
      (ed.path, mkBacklink E ed) ∉
        (backlinkPairs entries).filter fun p => p.1 == B.path) ∧
    (viewerData entries).entries.length = entries.length := by
  refine ⟨?_, ?_, ?_⟩
  · simp only [entryJson, List.mem_map]
    exact ⟨ed, hed, rfl⟩
  · intro B hB hmem
    have hkey : (ed.path == B.path) = true := by
      have := List.of_mem_filter hmem
      simpa using this
    exact hdangling B hB ((beq_iff_eq.mp hkey).symm)
  · simp [viewerData]

theorem lexLe_trans : ∀ (a b c : List Char),
    lexLe a b = true → lexLe b c = true → lexLe a c = true
  | [], _, _, _, _ => rfl
  | _ :: _, [], _, hab, _ => by simp [lexLe] at hab
  | _ :: _, _ :: _, [], _, hbc => by simp [lexLe] at hbc
  | x :: xs, y :: ys, z :: zs, hab, hbc => by
    simp only [lexLe] at hab hbc ⊢
    split_ifs at hab hbc ⊢ <;>
      first
        | rfl
        | omega
        | exact lexLe_trans xs ys zs hab hbc

theorem lexLe_total : ∀ (a b : List Char), (lexLe a b || lexLe b a) = true
  | [], _ => by simp [lexLe]
  | _ :: _, [] => by simp [lexLe]
  | x :: xs, y :: ys => by
    simp only [lexLe]
    by_cases h1 : x.toNat < y.toNat
    · simp [h1]
    · by_cases h2 : y.toNat < x.toNat
      · simp [h1, h2]
      · simp only [if_neg h1, if_neg h2]
        exact lexLe_total xs ys

theorem docLe_trans (a b c : Doc) (hab : docLe a b = true) (hbc : docLe b c = true) :
    docLe a c = true :=
  lexLe_trans _ _ _ hab hbc

theorem docLe_total (a b : Doc) : (docLe a b || docLe b a) = true :=
  lexLe_total _ _

theorem pairwise_path_filterMap (docs : List Doc)
    (h : ∀ d ∈ docs, ∀ e, d.parsed = some e → e.path = d.path)
    (hp : List.Pairwise (fun a b : Doc => lexLe a.path.data b.path.data = true) docs) :
    List.Pairwise (fun a b : Entry => lexLe a.path.data b.path.data = true)
      (docs.filterMap Doc.parsed) := by
  induction docs with
  | nil => exact List.Pairwise.nil
  | cons d rest ih =>
    have hrest : List.Pairwise (fun a b : Doc => lexLe a.path.data b.path.data = true) rest :=
      (List.pairwise_cons.mp hp).2
    have hd : ∀ d2 ∈ rest, lexLe d.path.data d2.path.data = true :=
      (List.pairwise_cons.mp hp).1
    have hrest2 : ∀ d2 ∈ rest, ∀ e, d2.parsed = some e → e.path = d2.path :=
      fun d2 hd2 => h d2 (List.mem_cons_of_mem d hd2)
    rw [List.filterMap_cons]
    cases hcase : d.parsed with
    | none => exact ih hrest2 hrest
    | some e =>
      refine List.pairwise_cons.mpr ⟨?_, ih hrest2 hrest⟩
      intro e2 he2
      rcases List.mem_filterMap.mp he2 with ⟨d2, hd2, hde2⟩
      have h1 : e.path = d.path := h d (List.mem_cons_self d rest) e hcase
      have h2 : e2.path = d2.path := hrest2 d2 hd2 e2 hde2
      rw [h1, h2]
      exact hd d2 hd2

theorem c2_dangling_edge_witness :
    edgeCMissing ∈ (entryJson [entryA, entryB, entryC] entryC).edges ∧
    (∀ B ∈ [entryA, entryB, entryC],
      (edgeCMissing.path, mkBacklink entryC edgeCMissing) ∉
        (backlinkPairs [entryA, entryB, entryC]).filter
          fun p => p.1 == B.path) ∧
    (viewerData [entryA, entryB, entryC]).entries.length = 3 :=
  c2_dangling_edge [entryA, entryB, entryC] entryC edgeCMissing
    (by decide) (by decide) (by decide)

/-- C3: for every batch of documents, a document whose parse fails
contributes no entry to the snapshot while every document that parses
successfully is still loaded: the loaded entries are exactly the parse
successes, and their number is the number of documents whose parse
succeeded, so one malformed document never aborts the load. -/
theorem c3_parse_skip (docs : List Doc) :
    (∀ d ∈ docs, ∀ e, d.parsed = some e → e ∈ buildEntries docs) ∧
    (∀ e ∈ buildEntries docs, ∃ d ∈ docs, d.parsed = some e) ∧
    (buildEntries docs).length = docs.countP (fun d => d.parsed.isSome) := by
  refine ⟨?_, ?_, ?_⟩
  · intro d hd e he
    exact List.mem_filterMap.mpr ⟨d, List.mem_mergeSort.mpr hd, he⟩
  · intro e he
    rcases List.mem_filterMap.mp he with ⟨d, hd, hde⟩
    exact ⟨d, List.mem_mergeSort.mp hd, hde⟩
  · rw [buildEntries, List.length_filterMap_eq_countP]
    exact List.Perm.countP_eq _ (List.mergeSort_perm docs docLe)

theorem c3_parse_skip_witness :
    entryA ∈ buildEntries [docB, docA, docBad] ∧
    (buildEntries [docB, docA, docBad]).length = 2 :=
  ⟨(c3_parse_skip [docB, docA, docBad]).1 docA (by decide) entryA rfl,
   by
    have h := (c3_parse_skip [docB, docA, docBad]).2.2
    rw [h]
    decide⟩

/-- C6: with documents identified by their repository paths and the parser
keying each produced entry by its document's path, the viewer's entries
list and graph node list appear sorted ascending by document path. -/
theorem c6_sorted_order (docs : List Doc)
    (h : ∀ d ∈ docs, ∀ e, d.parsed = some e → e.path = d.path) :
    List.Pairwise (fun a b => lexLe a.data b.data = true)
      ((viewerData (buildEntries docs)).entries.map EntryJson.path) ∧
    List.Pairwise (fun a b => lexLe a.data b.data = true)
      ((viewerData (buildEntries docs)).graphNodes.map GraphNode.id) := by
  have hdocs : List.Pairwise (fun a b : Doc => lexLe a.path.data b.path.data = true)
      (docs.mergeSort docLe) :=
    List.sorted_mergeSort docLe_trans docLe_total docs
  have hsorted2 : ∀ d ∈ docs.mergeSort docLe, ∀ e, d.parsed = some e → e.path = d.path :=
    fun d hd => h d (List.mem_mergeSort.mp hd)
  have hentries : List.Pairwise (fun a b : Entry => lexLe a.path.data b.path.data = true)
      (buildEntries docs) :=
    pairwise_path_filterMap _ hsorted2 hdocs
  constructor
  · show List.Pairwise _
      (((buildEntries docs).map (entryJson (buildEntries docs))).map EntryJson.path)
    rw [List.map_map]
    exact (List.pairwise_map).mpr hentries
  · show List.Pairwise _ ((graphNodesOf (buildEntries docs)).map GraphNode.id)
    rw [graphNodesOf, List.map_map]
    exact (List.pairwise_map).mpr hentries

theorem c6_sorted_order_witness :
    List.Pairwise (fun a b => lexLe a.data b.data = true)
      ((viewerData (buildEntries [docB, docA, docBad])).entries.map EntryJson.path) ∧
    List.Pairwise (fun a b => lexLe a.data b.data = true)
      ((viewerData (buildEntries [docB, docA, docBad])).graphNodes.map GraphNode.id) :=
  c6_sorted_order [docB, docA, docBad]
    (by
      intro d hd e he
      simp only [List.mem_cons, List.not_mem_nil, or_false] at hd
      rcases hd with rfl | rfl | rfl
      · rw [show docB.parsed = some entryB from rfl] at he
        cases he
        rfl
      · rw [show docA.parsed = some entryA from rfl] at he
        cases he
        rfl
      · cases he)

theorem exists_middle_section {α β : Type} [DecidableEq β] (A C : List α) (hdr : α)
    (l : List β) (f : β → α) :
    ∃ pre post, A ++ (if l = [] then [] else hdr :: l.map f) ++ C
      = pre ++ l.map f ++ post := by
  by_cases h : l = []
  · exact ⟨[], A ++ C, by simp [h]⟩
  · exact ⟨A ++ [hdr], C, by simp [h]⟩

theorem edges_eta (l : List Edge) :
    (l.map fun ed : Edge =>
      ({ path := ed.path, label := ed.label, description := ed.description } : Edge)) = l := by
  have h : (fun ed : Edge =>
      ({ path := ed.path, label := ed.label, description := ed.description } : Edge)) = id := rfl
  rw [h, List.map_id]

theorem sources_eta (l : List Source) :
    (l.map fun s : Source => ({ url := s.url, title := s.title } : Source)) = l := by
  have h : (fun s : Source => ({ url := s.url, title := s.title } : Source)) = id := rfl
  rw [h, List.map_id]

/-- C4: the stored order of an entry's edges, sources and tags survives
every read path verbatim: the viewer JSON emits them unchanged, and the
kb_read and cmd_read line renderings contain the edge lines and source
lines as contiguous blocks in stored order and the tags joined in stored
order. -/
theorem c4_order_preserved (entries : List Entry) (e : Entry) (bls : List Backlink) :
    (entryJson entries e).edges = e.edges ∧
    (entryJson entries e).sources = e.sources ∧
    (entryJson entries e).tags = e.tags ∧
    (∃ pre post, kbReadParts e bls = pre ++ e.edges.map edgeLine ++ post) ∧
    (∃ pre post, kbReadParts e bls = pre ++ e.sources.map sourceLine ++ post) ∧
    ("tags: " ++ String.intercalate ", " e.tags) ∈ kbReadParts e bls := by
  refine ⟨edges_eta e.edges, sources_eta e.sources, rfl, ?_, ?_, ?_⟩
  · exact exists_middle_section _ _ _ e.edges edgeLine
  · obtain ⟨pre, post, hp⟩ :=
      exists_middle_section
        ((["# " ++ e.title, "type: " ++ e.type, "summary: " ++ e.summary,
           "tags: " ++ String.intercalate ", " e.tags, "created: " ++ e.created]
          ++ (if e.updated = "" then [] else ["updated: " ++ e.updated]))
         ++ (if e.edges = [] then [] else "\nedges:" :: e.edges.map edgeLine))
        ((if bls = [] then [] else "\nbacklinks:" :: bls.map backlinkLine)
         ++ ["\n---\n" ++ e.body])
        "\nsources:" e.sources sourceLine
    refine ⟨pre, post, ?_⟩
    rw [kbReadParts, ← hp]
    simp [List.append_assoc]
  · simp [kbReadParts]

theorem c4_order_preserved_witness :
    (entryJson [entryA, entryB] entryA).edges = entryA.edges ∧
    (entryJson [entryA, entryB] entryA).sources = entryA.sources ∧
    (entryJson [entryA, entryB] entryA).tags = entryA.tags ∧
    (∃ pre post, kbReadParts entryA [] = pre ++ entryA.edges.map edgeLine ++ post) ∧
    (∃ pre post, kbReadParts entryA [] = pre ++ entryA.sources.map sourceLine ++ post) ∧
    ("tags: " ++ String.intercalate ", " entryA.tags) ∈ kbReadParts entryA [] :=
  c4_order_preserved [entryA, entryB] entryA []

/-- C5: the viewer's stats.total_edges is the sum over all loaded entries
of their edge-list lengths, stats.total is the number of loaded entries,
and the CLI stats command's sum and entry count compute the same
quantities over the same snapshot. -/
theorem c5_stats_totals (kb : KnowledgeBase) :
    (viewerData kb.entries).statsTotalEdges
        = (kb.entries.map fun e => e.edges.length).sum ∧
    (viewerData kb.entries).statsTotal = kb.entries.length ∧
    cmdStatsEdges kb = (viewerData kb.entries).statsTotalEdges ∧
    entryCount kb = (viewerData kb.entries).statsTotal := by
  have h1 : (graphEdgesOf kb.entries).length
      = (kb.entries.map fun e => e.edges.length).sum := by
    rw [graphEdgesOf, List.length_flatMap]
    congr 1
    apply List.map_congr_left
    intro e _
    simp
  refine ⟨h1, by simp [viewerData], ?_, by simp [viewerData, entryCount]⟩
  rw [cmdStatsEdges]
  exact h1.symm

theorem c5_stats_totals_witness :
    (viewerData sampleKb.entries).statsTotalEdges = 1 ∧
    cmdStatsEdges sampleKb = 1 ∧
    entryCount sampleKb = 2 := by
  have h := c5_stats_totals sampleKb
  refine ⟨?_, ?_, ?_⟩
  · rw [h.1]; decide
  · rw [h.2.2.1, h.1]; decide
  · rw [h.2.2.2, h.2.1]; decide

/-- C7: when no loaded entry has the requested path, kb_read returns the
explicit not-found string and cmd_read exits with the same message as an
error, in both cases as an ordinary result rather than an exception. -/
theorem c7_missing_lookup (kb : KnowledgeBase) (path : String)
    (habsent : ∀ e ∈ kb.entries, e.path ≠ path) :
    kbRead kb path = "Entry not found: " ++ path ∧
    cmdRead kb path = Except.error ("Entry not found: " ++ path) := by
  have hfind : readEntry kb path = none := by
    rw [readEntry, List.find?_eq_none]
    intro e he
    simpa using habsent e he
  constructor
  · rw [kbRead, hfind]
  · rw [cmdRead, hfind]

theorem c7_missing_lookup_witness :
    kbRead sampleKb "/knowledge/zzz.md" = "Entry not found: /knowledge/zzz.md" ∧
    cmdRead sampleKb "/knowledge/zzz.md"
      = Except.error ("Entry not found: /knowledge/zzz.md") :=
  c7_missing_lookup sampleKb "/knowledge/zzz.md" (by decide)

/-- C8: every CLI invocation constructs the knowledge base with the
auto_pull flag forced off regardless of the loaded configuration, so the
snapshot is whatever local entries existed at startup and automatic
refresh-before-read is disabled. -/
theorem c8_auto_pull_forced_off (config : Config) (localEntries : List Entry) :
    (makeKb config localEntries).config.sync.auto_pull = false ∧
    autoRefreshEnabled (makeKb config localEntries) = false ∧
    (makeKb config localEntries).entries = localEntries :=
  ⟨rfl, rfl, rfl⟩

/-- C9: when the derived filename extension, lower-cased, is not an accepted
image extension, kb_upload answers with the unsupported-type error and
performs no side effect at all, and the CLI upload loop prints a skip line
for that source and processes the remaining sources exactly as it would
have processed them alone. -/
theorem c9_unsupported_extension (config : Config) (env : UploadEnv)
    (senv : String → UploadEnv) (source : String) (branch : Option String)
    (rest : List String) (cliBranch : String)
    (hext : uploadExt source ∉ IMAGE_EXTENSIONS)
    (htoken : config.memex_git_token ≠ "")
    (hgh : ¬(config.github.owner = "" ∨ config.github.repo = "")) :
    kbUpload config env source branch = (unsupportedMsg (uploadExt source), []) ∧
    cmdUploadLoop config senv cliBranch (source :: rest)
      = (("Skipping " ++ uploadFilename source ++ ": unsupported type '" ++
            uploadExt source ++ "'") :: (cmdUploadLoop config senv cliBranch rest).1,
         (cmdUploadLoop config senv cliBranch rest).2) := by
  constructor
  · rw [kbUpload, if_neg htoken, if_neg hgh, if_pos hext]
  · rw [cmdUploadLoop]
    simp only [if_pos hext]

theorem c9_unsupported_extension_witness :
    kbUpload sampleConfig sampleUploadEnv "https://ex.org/img.txt?x=1" none
      = (unsupportedMsg (uploadExt "https://ex.org/img.txt?x=1"), []) ∧
    cmdUploadLoop sampleConfig (fun _ => sampleUploadEnv) "main"
        ["https://ex.org/img.txt?x=1"]
      = (("Skipping " ++ uploadFilename "https://ex.org/img.txt?x=1" ++
            ": unsupported type '" ++ uploadExt "https://ex.org/img.txt?x=1" ++ "'")
           :: (cmdUploadLoop sampleConfig (fun _ => sampleUploadEnv) "main" []).1,
         (cmdUploadLoop sampleConfig (fun _ => sampleUploadEnv) "main" []).2) :=
  c9_unsupported_extension sampleConfig sampleUploadEnv (fun _ => sampleUploadEnv)
    "https://ex.org/img.txt?x=1" none [] "main" (by decide) (by decide) (by decide)

/-- C10: a summary that is empty or whitespace-only makes kb_add answer the
empty-summary error with no agent launch, while any non-blank summary that
passes the configuration checks reaches the launch with a prompt built from
the whitespace-stripped summary. -/
theorem c10_summary_validation (bp : String → KnowledgeBase → List String → String)
    (kb : KnowledgeBase) (config : Config) (env : AddEnv) (summary : String)
    (branch : Option String)
    (hkey : config.cursor_api_key ≠ "")
    (hgh : ¬(config.github.owner = "" ∨ config.github.repo = "")) :
    ((summary = "" ∨ pyStrip summary = "") →
      kbAdd bp kb config env summary branch = ("Error: Summary cannot be empty", none)) ∧
    (pyStrip summary ≠ "" →
      ∃ images, (kbAdd bp kb config env summary branch).2
        = some (bp (pyStrip summary) kb images)) := by
  constructor
  · intro hblank
    rw [kbAdd, if_pos hblank]
  · intro hnb
    have hblank : ¬(summary = "" ∨ pyStrip summary = "") := by
      rintro (rfl | h)
      · exact hnb rfl
      · exact hnb h
    rw [kbAdd, if_neg hblank, if_neg hkey, if_neg hgh]
    refine ⟨(if (branch.getD config.github.default_branch) ≠ "" ∧ config.memex_git_token ≠ "" then
        match env.listAssets with
        | Except.ok l => l
        | Except.error _ => []
      else []), ?_⟩
    cases env.launch with
    | error e => rfl
    | ok r => cases r; rfl

theorem c10_summary_validation_witness :
    kbAdd samplePromptFn sampleKb sampleConfig sampleAddEnv " \t\n" none
      = ("Error: Summary cannot be empty", none) ∧
    ∃ images, (kbAdd samplePromptFn sampleKb sampleConfig sampleAddEnv "  hello " none).2
      = some (samplePromptFn (pyStrip "  hello ") sampleKb images) :=
  ⟨(c10_summary_validation samplePromptFn sampleKb sampleConfig sampleAddEnv " \t\n" none
      (by decide) (by decide)).1 (Or.inr (by decide)),
   (c10_summary_validation samplePromptFn sampleKb sampleConfig sampleAddEnv "  hello " none
      (by decide) (by decide)).2 (by decide)⟩

end Memex
